import Mathlib

/-!
# Verification of the `jg` mocking core (`src/inc/jg_mock.h`)

A shallow embedding of the call-interception engine of `jg_mock.h`:

* `verified T` — `jg::detail::verified<T>` (non-reference specialization):
  a value box that checks `assigned` via `jg::verify` before it is read.
* `HList` — the heterogeneous tuple `std::tuple<base_t<Params>...>` used by
  `jg::detail::mock_aux_parameters` to hold the last call's arguments
  (the element types are already the decayed `base_t<Params>` types).
* `mock_aux` / `mock_aux_void` — `jg::detail::mock_aux<T, Params...>` for
  non-`void` and `void` return types (the two `mock_aux_return`
  specializations folded into the record).
* `mock_impl_call` / `mock_impl_call_void` — one call through
  `jg::detail::mock_impl`: construction, `impl(params...)`, destruction
  (the destructor increments the call counter unconditionally).

`jg_verify.h` and `jg_string.h` are not part of the repository's staged
sources, so `verify_mode`/`verified.read` and `trim` are modelled from the
spec's description of those collaborators.
-/

set_option autoImplicit false

namespace JgMock

/-! ## Heterogeneous argument tuples (`std::tuple<base_t<Params>...>`) -/

/-- The storage of `jg::detail::mock_aux_parameters`: one slot per parameter
position, with element types the decayed parameter types. -/
inductive HList : List Type → Type 1
  | nil : HList []
  | cons {α : Type} {Ts : List Type} : α → HList Ts → HList (α :: Ts)

/-- Zero-based positional access, `std::get<N>(m_params)`. -/
def HList.get : {Ts : List Type} → HList Ts → (i : Fin Ts.length) → Ts.get i
  | _ :: _, .cons a _, ⟨0, _⟩ => a
  | _ :: _, .cons _ t, ⟨n + 1, h⟩ => HList.get t ⟨n, Nat.lt_of_succ_lt_succ h⟩

/-- The value-initialized tuple (`tuple_params_t<Params...> m_params;`
default-constructs, and `std::tuple`'s default constructor value-initializes
every element). -/
class HListDefault (Ts : List Type) where
  hdefault : HList Ts

instance : HListDefault [] := ⟨.nil⟩

instance {α : Type} {Ts : List Type} [Inhabited α] [HListDefault Ts] :
    HListDefault (α :: Ts) :=
  ⟨.cons default HListDefault.hdefault⟩

/-- The default-constructed `m_params` tuple. -/
def hlistDefault (Ts : List Type) [HListDefault Ts] : HList Ts :=
  HListDefault.hdefault

/-! ## The verification primitive (`jg_verify.h`, external collaborator) -/

/-- Modelled from the spec: `jg::verify` (declared in `jg_verify.h`, which is
not among the staged sources) is "a runtime assertion/verification primitive
used to fail fast on precondition violations", "configurable externally to
abort, throw, or log-and-continue". The three configurations. -/
inductive verify_mode
  | abort
  | throwing
  | logAndContinue
deriving DecidableEq

/-- What a read of a `verified` box can do, seen from its caller:
return normally (`ok`), enter the verification failure path and not return
(`fail`: the abort/throw configurations), or enter the failure path, log, and
still return the stored payload (`defaulted`: the log-and-continue
configuration). -/
inductive read_result (T : Type)
  | ok (val : T)
  | fail
  | defaulted (val : T)
deriving DecidableEq

/-! ## `jg::detail::verified<T>`, non-reference specialization -/

/-- The box `jg::detail::verified<T>` for non-reference `T`: payload `T value{}`
(value-initialized) and `bool assigned = false`. -/
structure verified (T : Type) : Type where
  value : T
  assigned : Bool

/-- The just-constructed box: value-initialized payload, not assigned. -/
def verified.init (T : Type) [Inhabited T] : verified T :=
  { value := default, assigned := false }

/-- Assignment `operator=`: store the value, mark assigned (last write wins; both the
copy- and the move-assignment overloads do exactly this). -/
def verified.assign {T : Type} (v : verified T) (other : T) : verified T :=
  { v with value := other, assigned := true }

/-- Read conversion `operator T()`: `verify(assigned); return value;`.
Modelled from the spec for the unassigned case: the verification primitive
either stops the call (abort/throw) or logs and lets the read return the
stored payload (log-and-continue). -/
def verified.read {T : Type} (v : verified T) (mode : verify_mode) :
    read_result T :=
  if v.assigned then .ok v.value
  else
    match mode with
    | .logAndContinue => .defaulted v.value
    | _ => .fail

/-! ## `jg::trim` (`jg_string.h`, external collaborator) -/

/-- Left-and-right trimming on character lists: drop the characters
satisfying `p` from the front, then from the back. -/
def trimAux {α : Type} (p : α → Bool) (cs : List α) : List α :=
  (cs.dropWhile p).rdropWhile p

/-- Modelled from the spec: `jg::trim` from `jg_string.h` (not among the
staged sources), a "string-trimming helper"; `trim(prototype, " ")` yields
the prototype "with surrounding whitespace trimmed". Drops the characters of
`chars` from both ends of `s`. -/
def trim (s : String) (chars : String) : String :=
  String.mk (trimAux (fun c => chars.data.contains c) s.data)

/-- The string literal `JG_MOCK` pastes for the auxiliary data's prototype:
`#return_type " " #function_name "(" #__VA_ARGS__ ") " #suffix`. -/
def jg_mock_prototype_string
    (return_type function_name params_text post_qualifiers : String) : String :=
  return_type ++ " " ++ function_name ++ "(" ++ params_text ++ ") "
    ++ post_qualifiers

/-- The modulus of the source's `size_t m_count` call counter: `size_t` is
64 bits wide here, and unsigned increment wraps modulo `2 ^ 64`. -/
def size_t_mod : Nat := 2 ^ 64

/-! ## `jg::detail::mock_aux<T, Params...>`, non-`void` return type

`mock_aux` inherits `mock_aux_return<T>` (the member `verified<T> result`)
and `mock_aux_parameters<sizeof...(Params), Params...>` (the member
`tuple_params_t<Params...> m_params`); both base subobjects are folded into
the record. `Ts` is the list of decayed parameter types `base_t<Params>...`.
The override hook `std::function<T(Params...)> func` is `none` when empty;
an invoked hook either produces a value or throws (`Except.error`).
The `size_t m_count` counter is a `Nat` kept below `size_t_mod` by the
wrapping increment in `mock_impl_call`. -/

structure mock_aux (R : Type) (Ts : List Type) : Type 1 where
  result : verified R
  m_params : HList Ts
  func : Option (HList Ts → Except Unit R)
  m_count : Nat
  m_prototype : String

/-- The constructor `mock_aux(std::string prototype)`: `m_count(0)`,
`m_prototype(trim(prototype, " "))`; `result` and `m_params` are
default-initialized (value-initialized payloads), `func` is empty. -/
def mock_aux.make (R : Type) (Ts : List Type) [Inhabited R] [HListDefault Ts]
    (s : String) : mock_aux R Ts :=
  { result := verified.init R
    m_params := hlistDefault Ts
    func := none
    m_count := 0
    m_prototype := trim s " " }

/-- Accessor `count()`. -/
def mock_aux.count {R : Type} {Ts : List Type} (a : mock_aux R Ts) : Nat :=
  a.m_count

/-- Accessor `called()`: `m_count > 0`. -/
def mock_aux.called {R : Type} {Ts : List Type} (a : mock_aux R Ts) : Bool :=
  decide (a.m_count > 0)

/-- Accessor `prototype()`. -/
def mock_aux.prototype {R : Type} {Ts : List Type} (a : mock_aux R Ts) : String :=
  a.m_prototype

/-- Operation `reset()`: `*this = mock_aux(m_prototype);` — every member is replaced by
the corresponding member of a freshly constructed instance. -/
def mock_aux.reset {R : Type} {Ts : List Type} [Inhabited R] [HListDefault Ts]
    (a : mock_aux R Ts) : mock_aux R Ts :=
  mock_aux.make R Ts a.m_prototype

/-- Member `mock_aux_parameters::set_params`: `m_params = std::make_tuple(params...)`
— total replacement of the capture store with decayed copies. -/
def mock_aux.set_params {R : Type} {Ts : List Type} (a : mock_aux R Ts)
    (params : HList Ts) : mock_aux R Ts :=
  { a with m_params := params }

/-- Member `mock_aux_parameters::param<Number>()`:
`std::get<Number - 1>(m_params)` — 1-indexed positional read. -/
def mock_aux.param {R : Type} {Ts : List Type} (a : mock_aux R Ts)
    (number : Nat) (h : number - 1 < Ts.length) : Ts.get ⟨number - 1, h⟩ :=
  a.m_params.get ⟨number - 1, h⟩

/-! ## `jg::detail::mock_aux<void, Params...>`

The `mock_aux_return<void>` specialization contributes no `result` member;
everything else is the same template body. -/

structure mock_aux_void (Ts : List Type) : Type 1 where
  m_params : HList Ts
  func : Option (HList Ts → Except Unit Unit)
  m_count : Nat
  m_prototype : String

/-- The constructor `mock_aux(std::string prototype)` at `T = void`. -/
def mock_aux_void.make (Ts : List Type) [HListDefault Ts] (s : String) :
    mock_aux_void Ts :=
  { m_params := hlistDefault Ts
    func := none
    m_count := 0
    m_prototype := trim s " " }

/-- Accessor `count()`. -/
def mock_aux_void.count {Ts : List Type} (a : mock_aux_void Ts) : Nat :=
  a.m_count

/-- Accessor `called()`: `m_count > 0`. -/
def mock_aux_void.called {Ts : List Type} (a : mock_aux_void Ts) : Bool :=
  decide (a.m_count > 0)

/-- Accessor `prototype()`. -/
def mock_aux_void.prototype {Ts : List Type} (a : mock_aux_void Ts) : String :=
  a.m_prototype

/-- Operation `reset()`: `*this = mock_aux(m_prototype);`. -/
def mock_aux_void.reset {Ts : List Type} [HListDefault Ts]
    (a : mock_aux_void Ts) : mock_aux_void Ts :=
  mock_aux_void.make Ts a.m_prototype

/-- Member `set_params` at `T = void`. -/
def mock_aux_void.set_params {Ts : List Type} (a : mock_aux_void Ts)
    (params : HList Ts) : mock_aux_void Ts :=
  { a with m_params := params }

/-- Member `param<Number>()` at `T = void`. -/
def mock_aux_void.param {Ts : List Type} (a : mock_aux_void Ts)
    (number : Nat) (h : number - 1 < Ts.length) : Ts.get ⟨number - 1, h⟩ :=
  a.m_params.get ⟨number - 1, h⟩

/-! ## The interception engine (`jg::detail::mock_impl`)

One call through the generated callable is: construct a `mock_impl` over the
binding, run `impl(params...)`, destroy it. `impl` first stores the
arguments in the capture store, then resolves the outcome
(`mock_impl_base::impl`); the destructor increments the call counter
unconditionally, also while unwinding after a throw. -/

/-- What one call through the engine can do, seen from the caller. -/
inductive call_result (R : Type)
  /-- A normal return with value `r`, no verification failure. -/
  | value (r : R)
  /-- The verification primitive fired (unassigned `result` read) and the
  configuration stops the call: abort or throw. -/
  | violation_stop
  /-- The verification primitive fired, logged, and the call returned the
  stored payload anyway: the log-and-continue configuration. -/
  | violation_value (r : R)
  /-- The override hook threw; the exception propagates out of the call. -/
  | hook_raise
deriving DecidableEq

/-- Member `mock_impl_base<T, TImpl>::impl` for non-`void` `T`: invoke `aux.func`
when it is set, otherwise `return aux.result;` which reads the
`verified<T>` box. -/
def mock_impl_base_impl {R : Type} {Ts : List Type} (mode : verify_mode)
    (a : mock_aux R Ts) (args : HList Ts) : call_result R :=
  match a.func with
  | some f =>
    match f args with
    | .ok r => .value r
    | .error _ => .hook_raise
  | none =>
    match a.result.read mode with
    | .ok v => .value v
    | .fail => .violation_stop
    | .defaulted v => .violation_value v

/-- Member `mock_impl_base<void, TImpl>::impl`: invoke `aux.func` when it is set,
otherwise do nothing. -/
def mock_impl_base_impl_void {Ts : List Type} (a : mock_aux_void Ts)
    (args : HList Ts) : call_result Unit :=
  match a.func with
  | some f =>
    match f args with
    | .ok _ => .value ()
    | .error _ => .hook_raise
  | none => .value ()

/-- One full call through `mock_impl` (non-`void`): `impl` stores the
arguments via `set_params`, then resolves the outcome; the destructor runs
`aux.m_count++` on exit whatever the outcome was — an unsigned `size_t`
increment, so it wraps modulo `size_t_mod`. Returns the binding's state
after the call together with the outcome. -/
def mock_impl_call {R : Type} {Ts : List Type} (mode : verify_mode)
    (a : mock_aux R Ts) (args : HList Ts) : mock_aux R Ts × call_result R :=
  let a1 := a.set_params args
  let out := mock_impl_base_impl mode a1 args
  ({ a1 with m_count := (a1.m_count + 1) % size_t_mod }, out)

/-- One full call through `mock_impl` (`void`); the destructor's `size_t`
increment wraps modulo `size_t_mod`. -/
def mock_impl_call_void {Ts : List Type} (a : mock_aux_void Ts)
    (args : HList Ts) : mock_aux_void Ts × call_result Unit :=
  let a1 := a.set_params args
  let out := mock_impl_base_impl_void a1 args
  ({ a1 with m_count := (a1.m_count + 1) % size_t_mod }, out)

/-- A sequence of calls through the engine, keeping only the binding state. -/
def mock_calls {R : Type} {Ts : List Type} (mode : verify_mode)
    (a : mock_aux R Ts) (L : List (HList Ts)) : mock_aux R Ts :=
  L.foldl (fun b args => (mock_impl_call mode b args).1) a

/-- A sequence of calls through the engine (`void`). -/
def mock_calls_void {Ts : List Type} (a : mock_aux_void Ts)
    (L : List (HList Ts)) : mock_aux_void Ts :=
  L.foldl (fun b args => (mock_impl_call_void b args).1) a

/-! ## Reachable binding states

The states a test can put a binding into: construction (`JG_MOCK` runs the
`mock_aux` constructor), calls through the generated callable, assigning the
public `func` member, assigning the public `result` member (through
`verified::operator=`), and `reset()`. -/

inductive mock_aux.reachable {R : Type} {Ts : List Type} [Inhabited R]
    [HListDefault Ts] : mock_aux R Ts → Prop
  | make (s : String) : mock_aux.reachable (mock_aux.make R Ts s)
  | call {a : mock_aux R Ts} (mode : verify_mode) (args : HList Ts) :
      mock_aux.reachable a → mock_aux.reachable (mock_impl_call mode a args).1
  | set_func {a : mock_aux R Ts} (f : Option (HList Ts → Except Unit R)) :
      mock_aux.reachable a → mock_aux.reachable { a with func := f }
  | set_result {a : mock_aux R Ts} (v : R) :
      mock_aux.reachable a → mock_aux.reachable { a with result := a.result.assign v }
  | reset {a : mock_aux R Ts} :
      mock_aux.reachable a → mock_aux.reachable a.reset

inductive mock_aux_void.reachable {Ts : List Type} [HListDefault Ts] :
    mock_aux_void Ts → Prop
  | make (s : String) : mock_aux_void.reachable (mock_aux_void.make Ts s)
  | call {a : mock_aux_void Ts} (args : HList Ts) :
      mock_aux_void.reachable a → mock_aux_void.reachable (mock_impl_call_void a args).1
  | set_func {a : mock_aux_void Ts} (f : Option (HList Ts → Except Unit Unit)) :
      mock_aux_void.reachable a → mock_aux_void.reachable { a with func := f }
  | reset {a : mock_aux_void Ts} :
      mock_aux_void.reachable a → mock_aux_void.reachable a.reset

/-! ## Basic lemmas -/

theorem size_t_mod_pos : 0 < size_t_mod := by
  unfold size_t_mod
  positivity

@[simp] theorem hlistDefault_nil : hlistDefault [] = HList.nil := rfl

@[simp] theorem hlistDefault_cons {α : Type} {Ts : List Type}
    [Inhabited α] [HListDefault Ts] :
    hlistDefault (α :: Ts) = HList.cons default (hlistDefault Ts) := rfl

@[simp] theorem verified_init_value {T : Type} [Inhabited T] :
    (verified.init T).value = default := rfl

@[simp] theorem verified_init_assigned {T : Type} [Inhabited T] :
    (verified.init T).assigned = false := rfl

@[simp] theorem verified_assign_value {T : Type} (v : verified T) (x : T) :
    (v.assign x).value = x := rfl

@[simp] theorem verified_assign_assigned {T : Type} (v : verified T) (x : T) :
    (v.assign x).assigned = true := rfl

theorem dropWhile_trimAux {α : Type} (p : α → Bool) (cs : List α) :
    ((cs.dropWhile p).rdropWhile p).dropWhile p
      = (cs.dropWhile p).rdropWhile p := by
  rw [List.dropWhile_eq_self_iff]
  intro hl hp
  obtain ⟨t, ht⟩ : ∃ t, (cs.dropWhile p).rdropWhile p ++ t = cs.dropWhile p := by
    obtain ⟨t, ht⟩ := List.dropWhile_suffix (l := (cs.dropWhile p).reverse) p
    exact ⟨t.reverse, by
      have := congrArg List.reverse ht
      simpa [List.rdropWhile] using this⟩
  rcases hB : (cs.dropWhile p).rdropWhile p with _ | ⟨b, bs⟩
  · rw [hB] at hl
    simp at hl
  · have hA : cs.dropWhile p = b :: (bs ++ t) := by
      rw [← ht, hB]
      simp
    have h0 : 0 < (cs.dropWhile p).length := by
      rw [hA]
      simp
    have hnot := List.dropWhile_get_zero_not p cs h0
    simp only [hA, List.get_eq_getElem, List.getElem_cons_zero] at hnot
    simp only [hB, List.get_eq_getElem, List.getElem_cons_zero] at hp
    exact hnot hp

theorem trimAux_idem {α : Type} (p : α → Bool) (cs : List α) :
    trimAux p (trimAux p cs) = trimAux p cs := by
  unfold trimAux
  rw [dropWhile_trimAux, List.rdropWhile_idempotent]

/-- Trimming is idempotent: re-trimming an already trimmed string with the
same character set changes nothing. -/
theorem trim_idem (s chars : String) : trim (trim s chars) chars = trim s chars := by
  simp only [trim]
  exact congrArg String.mk (trimAux_idem _ _)

/-! ## Projection lemmas -/

section Projections

variable {R : Type} {Ts : List Type}

@[simp] theorem make_result [Inhabited R] [HListDefault Ts] (s : String) :
    (mock_aux.make R Ts s).result = verified.init R := rfl

@[simp] theorem make_m_params [Inhabited R] [HListDefault Ts] (s : String) :
    (mock_aux.make R Ts s).m_params = hlistDefault Ts := rfl

@[simp] theorem make_func [Inhabited R] [HListDefault Ts] (s : String) :
    (mock_aux.make R Ts s).func = none := rfl

@[simp] theorem make_m_count [Inhabited R] [HListDefault Ts] (s : String) :
    (mock_aux.make R Ts s).m_count = 0 := rfl

@[simp] theorem make_m_prototype [Inhabited R] [HListDefault Ts] (s : String) :
    (mock_aux.make R Ts s).m_prototype = trim s " " := rfl

@[simp] theorem set_params_result (a : mock_aux R Ts) (ps : HList Ts) :
    (a.set_params ps).result = a.result := rfl

@[simp] theorem set_params_func (a : mock_aux R Ts) (ps : HList Ts) :
    (a.set_params ps).func = a.func := rfl

@[simp] theorem set_params_m_count (a : mock_aux R Ts) (ps : HList Ts) :
    (a.set_params ps).m_count = a.m_count := rfl

@[simp] theorem set_params_m_prototype (a : mock_aux R Ts) (ps : HList Ts) :
    (a.set_params ps).m_prototype = a.m_prototype := rfl

@[simp] theorem set_params_m_params (a : mock_aux R Ts) (ps : HList Ts) :
    (a.set_params ps).m_params = ps := rfl

@[simp] theorem call_fst_m_count (mode : verify_mode) (a : mock_aux R Ts)
    (args : HList Ts) :
    (mock_impl_call mode a args).1.m_count = (a.m_count + 1) % size_t_mod := rfl

@[simp] theorem call_fst_m_params (mode : verify_mode) (a : mock_aux R Ts)
    (args : HList Ts) :
    (mock_impl_call mode a args).1.m_params = args := rfl

@[simp] theorem call_fst_func (mode : verify_mode) (a : mock_aux R Ts)
    (args : HList Ts) :
    (mock_impl_call mode a args).1.func = a.func := rfl

@[simp] theorem call_fst_result (mode : verify_mode) (a : mock_aux R Ts)
    (args : HList Ts) :
    (mock_impl_call mode a args).1.result = a.result := rfl

@[simp] theorem call_fst_m_prototype (mode : verify_mode) (a : mock_aux R Ts)
    (args : HList Ts) :
    (mock_impl_call mode a args).1.m_prototype = a.m_prototype := rfl

@[simp] theorem call_snd (mode : verify_mode) (a : mock_aux R Ts)
    (args : HList Ts) :
    (mock_impl_call mode a args).2 = mock_impl_base_impl mode (a.set_params args) args := rfl

@[simp] theorem void_make_m_params [HListDefault Ts] (s : String) :
    (mock_aux_void.make Ts s).m_params = hlistDefault Ts := rfl

@[simp] theorem void_make_func [HListDefault Ts] (s : String) :
    (mock_aux_void.make Ts s).func = none := rfl

@[simp] theorem void_make_m_count [HListDefault Ts] (s : String) :
    (mock_aux_void.make Ts s).m_count = 0 := rfl

@[simp] theorem void_make_m_prototype [HListDefault Ts] (s : String) :
    (mock_aux_void.make Ts s).m_prototype = trim s " " := rfl

@[simp] theorem void_set_params_func (a : mock_aux_void Ts) (ps : HList Ts) :
    (a.set_params ps).func = a.func := rfl

@[simp] theorem void_set_params_m_count (a : mock_aux_void Ts) (ps : HList Ts) :
    (a.set_params ps).m_count = a.m_count := rfl

@[simp] theorem void_set_params_m_prototype (a : mock_aux_void Ts) (ps : HList Ts) :
    (a.set_params ps).m_prototype = a.m_prototype := rfl

@[simp] theorem void_set_params_m_params (a : mock_aux_void Ts) (ps : HList Ts) :
    (a.set_params ps).m_params = ps := rfl

@[simp] theorem void_call_fst_m_count (a : mock_aux_void Ts) (args : HList Ts) :
    (mock_impl_call_void a args).1.m_count = (a.m_count + 1) % size_t_mod := rfl

@[simp] theorem void_call_fst_m_params (a : mock_aux_void Ts) (args : HList Ts) :
    (mock_impl_call_void a args).1.m_params = args := rfl

@[simp] theorem void_call_fst_func (a : mock_aux_void Ts) (args : HList Ts) :
    (mock_impl_call_void a args).1.func = a.func := rfl

@[simp] theorem void_call_fst_m_prototype (a : mock_aux_void Ts) (args : HList Ts) :
    (mock_impl_call_void a args).1.m_prototype = a.m_prototype := rfl

@[simp] theorem void_call_snd (a : mock_aux_void Ts) (args : HList Ts) :
    (mock_impl_call_void a args).2 = mock_impl_base_impl_void (a.set_params args) args := rfl

@[simp] theorem mock_calls_nil (mode : verify_mode) (a : mock_aux R Ts) :
    mock_calls mode a [] = a := rfl

@[simp] theorem mock_calls_cons (mode : verify_mode) (a : mock_aux R Ts)
    (args : HList Ts) (L : List (HList Ts)) :
    mock_calls mode a (args :: L) = mock_calls mode (mock_impl_call mode a args).1 L := rfl

@[simp] theorem mock_calls_void_nil (a : mock_aux_void Ts) :
    mock_calls_void a [] = a := rfl

@[simp] theorem mock_calls_void_cons (a : mock_aux_void Ts)
    (args : HList Ts) (L : List (HList Ts)) :
    mock_calls_void a (args :: L) = mock_calls_void (mock_impl_call_void a args).1 L := rfl

end Projections

theorem count_eq_m_count {R : Type} {Ts : List Type} (a : mock_aux R Ts) :
    a.count = a.m_count := rfl

theorem called_eq_m_count {R : Type} {Ts : List Type} (a : mock_aux R Ts) :
    a.called = decide (a.m_count > 0) := rfl

/-- A sequence of calls adds its length to the call counter, modulo the
`size_t` width, whenever the counter starts in range (as every reachable
state does). -/
theorem mock_calls_m_count {R : Type} {Ts : List Type} (mode : verify_mode)
    (a : mock_aux R Ts) (L : List (HList Ts)) (h : a.m_count < size_t_mod) :
    (mock_calls mode a L).m_count = (a.m_count + L.length) % size_t_mod := by
  induction L generalizing a h with
  | nil => simpa using (Nat.mod_eq_of_lt h).symm
  | cons args L ih =>
    rw [mock_calls_cons, ih (mock_impl_call mode a args).1 (by
      rw [call_fst_m_count]
      exact Nat.mod_lt _ size_t_mod_pos)]
    rw [call_fst_m_count, Nat.mod_add_mod, List.length_cons]
    congr 1
    omega

/-- A sequence of calls adds its length to the call counter, modulo the
`size_t` width (`void`). -/
theorem mock_calls_void_m_count {Ts : List Type}
    (a : mock_aux_void Ts) (L : List (HList Ts)) (h : a.m_count < size_t_mod) :
    (mock_calls_void a L).m_count = (a.m_count + L.length) % size_t_mod := by
  induction L generalizing a h with
  | nil => simpa using (Nat.mod_eq_of_lt h).symm
  | cons args L ih =>
    rw [mock_calls_void_cons, ih (mock_impl_call_void a args).1 (by
      rw [void_call_fst_m_count]
      exact Nat.mod_lt _ size_t_mod_pos)]
    rw [void_call_fst_m_count, Nat.mod_add_mod, List.length_cons]
    congr 1
    omega

/-- Every reachable binding state carries a prototype string that is a fixed
point of trimming: the constructor trims it and nothing else writes it. -/
theorem reachable_trim_fixed {R : Type} {Ts : List Type} [Inhabited R]
    [HListDefault Ts] {a : mock_aux R Ts} (h : a.reachable) :
    trim a.m_prototype " " = a.m_prototype := by
  induction h with
  | make s => exact trim_idem s " "
  | call mode args _ ih => simpa using ih
  | set_func f _ ih => simpa using ih
  | set_result v _ ih => simpa using ih
  | reset _ _ => exact trim_idem _ " "

/-- Every reachable binding state carries a trim-fixed prototype (`void`). -/
theorem reachable_void_trim_fixed {Ts : List Type} [HListDefault Ts]
    {a : mock_aux_void Ts} (h : a.reachable) :
    trim a.m_prototype " " = a.m_prototype := by
  induction h with
  | make s => exact trim_idem s " "
  | call args _ ih => simpa using ih
  | set_func f _ ih => simpa using ih
  | reset _ _ => exact trim_idem _ " "

/-! ## The claims -/

/-- C1: a non-void mock call with no override hook and a never-assigned
`result` slot triggers the precondition-violation failure path of the
verification primitive instead of returning a value: the outcome is never a
silent normal return (`call_result.value`), under every verification
configuration. In the abort/throw configurations the call stops; in the
log-and-continue configuration the failure path is still triggered (logged)
before the payload is handed back, which is `violation_value`, not a silent
substitution. -/
theorem C1_unassigned_result_fails_loudly
    (R : Type) (Ts : List Type) (mode : verify_mode)
    (a : mock_aux R Ts) (args : HList Ts)
    (hf : a.func = none) (hr : a.result.assigned = false) :
    ((mock_impl_call mode a args).2 = .violation_stop
      ∨ (mock_impl_call mode a args).2 = .violation_value a.result.value)
    ∧ (∀ r : R, (mock_impl_call mode a args).2 ≠ .value r)
    ∧ (mode ≠ .logAndContinue → (mock_impl_call mode a args).2 = .violation_stop) := by
  cases mode <;>
    simp [mock_impl_call, mock_impl_base_impl, verified.read,
      mock_aux.set_params, hf, hr]

/-- C1 witness: a fresh `int`-returning arity-0 binding, no hook, `result`
never assigned, abort configuration: the call stops in the failure path. -/
theorem C1_witness :
    (mock_impl_call .abort (mock_aux.make Nat [] "int f()") HList.nil).2
      = .violation_stop := by
  have h := C1_unassigned_result_fails_loudly Nat [] .abort
    (mock_aux.make Nat [] "int f()") HList.nil rfl rfl
  exact h.2.2 (by decide)

/-- C2 counterexample: the claim "count() returns exactly N and called() is
false iff N = 0, for every N" fails at N = `2 ^ 64`: the source's counter is
a `size_t` (`jg_mock.h:171`) whose increment (`jg_mock.h:237`) wraps, so
after `2 ^ 64` calls on a fresh binding `count()` is `0`, not `2 ^ 64`, and
`called()` is `false` although N is not `0`. -/
theorem C2_counterexample :
    ((mock_calls .abort (mock_aux.make Nat [] "int f()")
        (List.replicate size_t_mod HList.nil)).count = 0)
    ∧ ((List.replicate size_t_mod (HList.nil : HList [])).length ≠ 0)
    ∧ ¬((mock_calls .abort (mock_aux.make Nat [] "int f()")
          (List.replicate size_t_mod HList.nil)).count
        = (List.replicate size_t_mod (HList.nil : HList [])).length)
    ∧ ((mock_calls .abort (mock_aux.make Nat [] "int f()")
        (List.replicate size_t_mod HList.nil)).called = false) := by
  have hml : (mock_aux.make Nat [] "int f()").m_count < size_t_mod := by
    rw [make_m_count]
    exact size_t_mod_pos
  have hm : (mock_calls .abort (mock_aux.make Nat [] "int f()")
      (List.replicate size_t_mod HList.nil)).m_count = 0 := by
    rw [mock_calls_m_count .abort _ _ hml, make_m_count, List.length_replicate,
      Nat.zero_add, Nat.mod_self]
  have hc : (mock_calls .abort (mock_aux.make Nat [] "int f()")
      (List.replicate size_t_mod HList.nil)).count = 0 := by
    rw [count_eq_m_count, hm]
  have hlen : (List.replicate size_t_mod (HList.nil : HList [])).length ≠ 0 := by
    simpa using Nat.pos_iff_ne_zero.mp size_t_mod_pos
  refine ⟨hc, hlen, ?_, ?_⟩
  · rw [hc]
    exact fun hcontra => hlen hcontra.symm
  · rw [called_eq_m_count, hm]
    rfl

/-- C2 (amended): for every mocked signature (non-void and void, freshly
constructed or freshly `reset()`) and every sequence of N calls through the
generated callable, `count()` is N modulo `2 ^ 64` afterwards — hence
exactly N whenever N is below `2 ^ 64` — and `called()` is false iff
N modulo `2 ^ 64` is 0. -/
theorem C2_count_called_mod_size_t
    (R : Type) (Ts : List Type) [Inhabited R] [HListDefault Ts]
    (mode : verify_mode) (s : String) (a : mock_aux R Ts)
    (av : mock_aux_void Ts) (L : List (HList Ts)) :
    ((mock_calls mode (mock_aux.make R Ts s) L).count = L.length % size_t_mod
      ∧ ((mock_calls mode (mock_aux.make R Ts s) L).called = false
          ↔ L.length % size_t_mod = 0)
      ∧ (L.length < size_t_mod →
          (mock_calls mode (mock_aux.make R Ts s) L).count = L.length
            ∧ ((mock_calls mode (mock_aux.make R Ts s) L).called = false
                ↔ L.length = 0)))
    ∧ ((mock_calls mode a.reset L).count = L.length % size_t_mod
      ∧ ((mock_calls mode a.reset L).called = false ↔ L.length % size_t_mod = 0))
    ∧ ((mock_calls_void (mock_aux_void.make Ts s) L).count = L.length % size_t_mod
      ∧ ((mock_calls_void (mock_aux_void.make Ts s) L).called = false
          ↔ L.length % size_t_mod = 0))
    ∧ ((mock_calls_void av.reset L).count = L.length % size_t_mod
      ∧ ((mock_calls_void av.reset L).called = false ↔ L.length % size_t_mod = 0)) := by
  have hmk : (mock_calls mode (mock_aux.make R Ts s) L).m_count
      = L.length % size_t_mod := by
    rw [mock_calls_m_count mode _ _ (by simpa using size_t_mod_pos)]
    simp
  have hrs : (mock_calls mode a.reset L).m_count = L.length % size_t_mod := by
    rw [mock_calls_m_count mode _ _ (by simpa [mock_aux.reset] using size_t_mod_pos)]
    simp [mock_aux.reset]
  have hmkv : (mock_calls_void (mock_aux_void.make Ts s) L).m_count
      = L.length % size_t_mod := by
    rw [mock_calls_void_m_count _ _ (by simpa using size_t_mod_pos)]
    simp
  have hrsv : (mock_calls_void av.reset L).m_count = L.length % size_t_mod := by
    rw [mock_calls_void_m_count _ _ (by simpa [mock_aux_void.reset] using size_t_mod_pos)]
    simp [mock_aux_void.reset]
  refine ⟨⟨hmk, ?_, fun hlt => ⟨?_, ?_⟩⟩, ⟨hrs, ?_⟩, ⟨hmkv, ?_⟩, ⟨hrsv, ?_⟩⟩ <;>
    simp [mock_aux.count, mock_aux.called, mock_aux_void.count, mock_aux_void.called,
      hmk, hrs, hmkv, hrsv, Nat.mod_eq_of_lt, *]

/-- C3: one call through the interception engine increments the call counter
by exactly one (`m_count++` on a `size_t`, so through the wrapping increment
`(count + 1) % 2 ^ 64`; whenever `count + 1` is in `size_t` range the new
counter is exactly `count + 1`), as a cleanup step on exit — also when the
override hook throws (the `Except.error` hook below): the counter in the
returned state is incremented while the outcome propagates the error. Never
skipped, never performed twice. -/
theorem C3_counter_incremented_exactly_once_on_exit
    (R : Type) (Ts : List Type) (mode : verify_mode)
    (a : mock_aux R Ts) (av : mock_aux_void Ts) (args : HList Ts) :
    ((mock_impl_call mode a args).1.count = (a.count + 1) % size_t_mod)
    ∧ (a.count + 1 < size_t_mod →
        (mock_impl_call mode a args).1.count = a.count + 1)
    ∧ ((mock_impl_call mode
          { a with func := some fun _ => Except.error () } args).1.count
        = (a.count + 1) % size_t_mod)
    ∧ ((mock_impl_call mode
          { a with func := some fun _ => Except.error () } args).2
        = .hook_raise)
    ∧ ((mock_impl_call_void av args).1.count = (av.count + 1) % size_t_mod)
    ∧ (av.count + 1 < size_t_mod →
        (mock_impl_call_void av args).1.count = av.count + 1)
    ∧ ((mock_impl_call_void
          { av with func := some fun _ => Except.error () } args).1.count
        = (av.count + 1) % size_t_mod)
    ∧ ((mock_impl_call_void
          { av with func := some fun _ => Except.error () } args).2
        = .hook_raise) := by
  refine ⟨rfl, fun h => Nat.mod_eq_of_lt h, rfl, ?_, rfl, fun h => Nat.mod_eq_of_lt h,
    rfl, ?_⟩ <;>
    simp [mock_impl_base_impl, mock_impl_base_impl_void, mock_aux.set_params,
      mock_aux_void.set_params]

/-- C4: when the override hook is set, the call resolves through the hook
with the very arguments the caller passed, and the `result` slot is never
read: the outcome is exactly what the hook produced, and replacing the
`result` slot by any other value does not change the outcome. The same holds
for void signatures (hook side effect/throw is the outcome). -/
theorem C4_hook_always_wins_result_unread
    (R : Type) (Ts : List Type) (mode : verify_mode) (a : mock_aux R Ts)
    (args : HList Ts) (f : HList Ts → Except Unit R)
    (hf : a.func = some f) :
    ((mock_impl_call mode a args).2
      = match f args with
        | .ok r => .value r
        | .error _ => .hook_raise)
    ∧ (∀ r' : verified R, (mock_impl_call mode { a with result := r' } args).2
        = (mock_impl_call mode a args).2)
    ∧ (∀ (av : mock_aux_void Ts) (g : HList Ts → Except Unit Unit),
        av.func = some g →
          (mock_impl_call_void av args).2
            = match g args with
              | .ok _ => .value ()
              | .error _ => .hook_raise) := by
  refine ⟨?_, ?_, ?_⟩
  · simp [mock_impl_base_impl, mock_aux.set_params, hf]
  · intro r'
    simp [mock_impl_base_impl, mock_aux.set_params, hf]
  · intro av g hg
    simp [mock_impl_base_impl_void, mock_aux_void.set_params, hg]

/-- C4 witness: hook returning 7 and `result` slot set to 9 on the same
binding: the call returns the hook's 7. -/
theorem C4_witness :
    (mock_impl_call .abort
      { mock_aux.make Nat [] "int f()" with
          func := some fun _ => Except.ok 7
          result := (verified.init Nat).assign 9 } HList.nil).2
      = .value 7 := by
  have h := C4_hook_always_wins_result_unread Nat [] .abort
    { mock_aux.make Nat [] "int f()" with
        func := some fun _ => Except.ok 7
        result := (verified.init Nat).assign 9 }
    HList.nil (fun _ => Except.ok 7) rfl
  exact h.1

/-- C5: a call stores decayed copies of the caller's arguments in the
capture store before the outcome is resolved: afterwards `param<i>()` equals
the i-th argument (1-indexed) for every valid position, the whole store is
exactly the argument tuple whatever it held before (wholesale overwrite),
and the outcome is computed from the state whose capture store was already
updated. Non-void and void alike. -/
theorem C5_arguments_captured_per_call
    (R : Type) (Ts : List Type) (mode : verify_mode)
    (a : mock_aux R Ts) (args : HList Ts)
    (number : Nat) (h : number - 1 < Ts.length) :
    ((mock_impl_call mode a args).1.param number h = args.get ⟨number - 1, h⟩)
    ∧ ((mock_impl_call mode a args).1.m_params = args)
    ∧ ((mock_impl_call mode a args).2
        = mock_impl_base_impl mode (a.set_params args) args)
    ∧ (∀ av : mock_aux_void Ts,
        (mock_impl_call_void av args).1.param number h = args.get ⟨number - 1, h⟩
          ∧ (mock_impl_call_void av args).1.m_params = args) := by
  exact ⟨rfl, rfl, rfl, fun av => ⟨rfl, rfl⟩⟩

/-- C5 witness: after a call with arguments `(5, "x")`, `param<1>()` is `5`
and `param<2>()` is `"x"`. -/
theorem C5_witness :
    ((mock_impl_call .abort (mock_aux.make Nat [Nat, String] "int f(int, str)")
        (HList.cons 5 (HList.cons "x" HList.nil))).1.param 1 (by decide)
      = (5 : Nat))
    ∧ ((mock_impl_call .abort (mock_aux.make Nat [Nat, String] "int f(int, str)")
        (HList.cons 5 (HList.cons "x" HList.nil))).1.param 2 (by decide)
      = "x") := by
  have h1 := C5_arguments_captured_per_call Nat [Nat, String] .abort
    (mock_aux.make Nat [Nat, String] "int f(int, str)")
    (HList.cons 5 (HList.cons "x" HList.nil)) 1 (by decide)
  have h2 := C5_arguments_captured_per_call Nat [Nat, String] .abort
    (mock_aux.make Nat [Nat, String] "int f(int, str)")
    (HList.cons 5 (HList.cons "x" HList.nil)) 2 (by decide)
  exact ⟨h1.1, h2.1⟩

/-- C6: from every reachable binding state, `reset()` restores
`count() == 0` and `called() == false`, clears the override hook,
reinitializes the capture store to default-constructed values and the
`result` slot to unassigned, and `prototype()` is the identical string
before and after. Non-void and void alike. -/
theorem C6_reset_restores_initial_state
    (R : Type) (Ts : List Type) [Inhabited R] [HListDefault Ts]
    (a : mock_aux R Ts) (ha : a.reachable)
    (av : mock_aux_void Ts) (hav : av.reachable) :
    (a.reset.count = 0)
    ∧ (a.reset.called = false)
    ∧ (a.reset.func = none)
    ∧ (a.reset.m_params = hlistDefault Ts)
    ∧ (a.reset.result = verified.init R)
    ∧ (a.reset.prototype = a.prototype)
    ∧ (av.reset.count = 0 ∧ av.reset.called = false ∧ av.reset.func = none
        ∧ av.reset.m_params = hlistDefault Ts
        ∧ av.reset.prototype = av.prototype) := by
  refine ⟨rfl, rfl, rfl, rfl, rfl, ?_, rfl, rfl, rfl, rfl, ?_⟩
  · exact reachable_trim_fixed ha
  · exact reachable_void_trim_fixed hav

/-- C6 witness: a binding with three calls recorded and a hook set reports,
after `reset()`, `count() == 0` and the same `prototype()`. -/
theorem C6_witness :
    (({ mock_calls .abort (mock_aux.make Nat [] "int foo()")
          [HList.nil, HList.nil, HList.nil] with
        func := some fun _ => Except.ok 1 } : mock_aux Nat []).reset.count = 0)
    ∧ (({ mock_calls .abort (mock_aux.make Nat [] "int foo()")
            [HList.nil, HList.nil, HList.nil] with
          func := some fun _ => Except.ok 1 } : mock_aux Nat []).reset.prototype
        = ({ mock_calls .abort (mock_aux.make Nat [] "int foo()")
              [HList.nil, HList.nil, HList.nil] with
            func := some fun _ => Except.ok 1 } : mock_aux Nat []).prototype) := by
  have h := C6_reset_restores_initial_state Nat []
    ({ mock_calls .abort (mock_aux.make Nat [] "int foo()")
        [HList.nil, HList.nil, HList.nil] with
      func := some fun _ => Except.ok 1 })
    (.set_func _ (.call _ _ (.call _ _ (.call _ _ (.make _)))))
    (mock_aux_void.make [] "void g()") (.make _)
  exact ⟨h.1, h.2.2.2.2.2.1⟩

/-- C7: the prototype string of a generated binding is the `JG_MOCK`
rendering `"<return-type> <name>(<parameter-type-list>) <post-qualifiers>"`
with surrounding spaces trimmed; equivalently, a `mock_aux` constructed from
any string `s` reports `prototype() = trim s " "`. The last conjunct
evaluates the trimming on a concrete rendering. -/
theorem C7_prototype_is_trimmed_rendering
    (R : Type) (Ts : List Type) [Inhabited R] [HListDefault Ts]
    (return_type function_name params_text post_qualifiers s : String) :
    ((mock_aux.make R Ts s).prototype = trim s " ")
    ∧ ((mock_aux.make R Ts
          (jg_mock_prototype_string return_type function_name params_text
            post_qualifiers)).prototype
        = trim (return_type ++ " " ++ function_name ++ "(" ++ params_text
            ++ ") " ++ post_qualifiers) " ")
    ∧ ((mock_aux_void.make Ts s).prototype = trim s " ")
    ∧ (trim (jg_mock_prototype_string "int" "foo" "int" "") " "
        = "int foo(int)") := by
  refine ⟨rfl, rfl, rfl, ?_⟩
  rfl

/-- C8: invocation through the engine never changes `prototype()` — it
mutates only the capture store and the call counter, leaving the signature
description, the hook and the `result` slot untouched (so repeated
`prototype()` reads return the identical string across calls). Non-void and
void alike. -/
theorem C8_prototype_never_mutated_by_invocation
    (R : Type) (Ts : List Type) (mode : verify_mode) (a : mock_aux R Ts)
    (av : mock_aux_void Ts) (args : HList Ts) :
    ((mock_impl_call mode a args).1.prototype = a.prototype)
    ∧ ((mock_impl_call mode a args).1.func = a.func)
    ∧ ((mock_impl_call mode a args).1.result = a.result)
    ∧ ((mock_impl_call_void av args).1.prototype = av.prototype)
    ∧ ((mock_impl_call_void av args).1.func = av.func) :=
  ⟨rfl, rfl, rfl, rfl, rfl⟩

/-- C9: on a binding with no call recorded since construction or the last
`reset()`, `param<i>()` at any valid position returns the value-initialized
(default-constructed) element of the capture store — it is a total read, no
failure path is involved. Non-void and void alike. -/
theorem C9_param_before_any_call_is_default
    (R : Type) (Ts : List Type) [Inhabited R] [HListDefault Ts]
    (s : String) (a : mock_aux R Ts) (av : mock_aux_void Ts)
    (number : Nat) (h : number - 1 < Ts.length) :
    ((mock_aux.make R Ts s).param number h
      = (hlistDefault Ts).get ⟨number - 1, h⟩)
    ∧ (a.reset.param number h = (hlistDefault Ts).get ⟨number - 1, h⟩)
    ∧ ((mock_aux_void.make Ts s).param number h
        = (hlistDefault Ts).get ⟨number - 1, h⟩)
    ∧ (av.reset.param number h = (hlistDefault Ts).get ⟨number - 1, h⟩) :=
  ⟨rfl, rfl, rfl, rfl⟩

/-- C9 witness: a fresh `(int, string)` binding yields `param<1>() == 0` and
`param<2>() == ""`. -/
theorem C9_witness :
    ((mock_aux.make Nat [Nat, String] "int f(int, str)").param 1 (by decide)
      = (0 : Nat))
    ∧ ((mock_aux.make Nat [Nat, String] "int f(int, str)").param 2 (by decide)
      = "") := by
  have h1 := C9_param_before_any_call_is_default Nat [Nat, String]
    "int f(int, str)" (mock_aux.make Nat [Nat, String] "int f(int, str)")
    (mock_aux_void.make [Nat, String] "void g(int, str)") 1 (by decide)
  have h2 := C9_param_before_any_call_is_default Nat [Nat, String]
    "int f(int, str)" (mock_aux.make Nat [Nat, String] "int f(int, str)")
    (mock_aux_void.make [Nat, String] "void g(int, str)") 2 (by decide)
  exact ⟨h1.1, h2.1⟩

/-- C10: in the non-reference `verified` specialization the payload is
value-initialized at construction, so under the log-and-continue
verification configuration a read of a never-assigned box — and hence a
call on an unconfigured non-void binding with no hook — deterministically
produces the value-initialized default of the return type, never an
indeterminate value. -/
theorem C10_log_and_continue_yields_value_initialized_default
    (R : Type) (Ts : List Type) [Inhabited R]
    (a : mock_aux R Ts) (args : HList Ts)
    (hf : a.func = none) (hr : a.result = verified.init R) :
    ((verified.init R).value = (default : R))
    ∧ ((verified.init R).read .logAndContinue = .defaulted (default : R))
    ∧ ((mock_impl_call .logAndContinue a args).2
        = .violation_value (default : R)) := by
  refine ⟨rfl, rfl, ?_⟩
  simp [mock_impl_base_impl, mock_aux.set_params, verified.read, hf, hr,
    verified.init]

/-- C10 witness: a fresh unconfigured `int` binding under log-and-continue
returns the value-initialized `0` through the failure path. -/
theorem C10_witness :
    (mock_impl_call .logAndContinue (mock_aux.make Nat [] "int f()")
      HList.nil).2 = .violation_value 0 := by
  have h := C10_log_and_continue_yields_value_initialized_default Nat []
    (mock_aux.make Nat [] "int f()") HList.nil rfl rfl
  exact h.2.2

end JgMock
